import Mathlib

/-!
Shallow embedding of the mlsac backend (`src/server.py`) and proofs about it.

Modelling conventions:
* Real-valued quantities (telemetry fields, probabilities) are rationals (`ℚ`).
* Timestamps are integers (microseconds); `datetime.timedelta(days := n)` is
  `days n`.
* The SQLite tables become Lean lists in insertion order (`AUTOINCREMENT` ids
  correspond to list positions; `ORDER BY id DESC` is list reversal).
* Randomness (`uuid.uuid4()`, `random.uniform`) is passed in explicitly as a
  parameter, so every operation is a pure function of state and draws.
* `HTTPException` is an `Except` error: 404 becomes `HttpError.NotFound`,
  401 becomes `HttpError.Unauthorized`.
-/

namespace Mlsac

/-- One telemetry tick (the `TickData` pydantic model, lines 183-191). -/
structure TickData where
  deltaYaw : ℚ
  deltaPitch : ℚ
  accelYaw : ℚ
  accelPitch : ℚ
  jerkYaw : ℚ
  jerkPitch : ℚ
  gcdErrorYaw : ℚ
  gcdErrorPitch : ℚ
deriving DecidableEq

/-- Row of the `checks` table (lines 22-28). -/
structure CheckRecord where
  player_uuid : String
  timestamp : Int
  probability : ℚ
  avg_jerk : ℚ
  verdict : String
deriving DecidableEq

/-- Row of the `servers` table (lines 31-41). -/
structure ServerRecord where
  id : String
  name : String
  api_key : String
  license_type : String
  expiration_date : Int
  status : String
  online_count : Int
  limit_count : Int
  requests_today : Int
  detections_total : Int
deriving DecidableEq

/-- Error outcomes raised via `HTTPException` in `server.py`. -/
inductive HttpError where
  | NotFound
  | Unauthorized
deriving DecidableEq

/-- Microseconds per day, the resolution of the timestamp model. -/
def microsecondsPerDay : Int := 86400000000

/-- Model of `datetime.timedelta(days := n)`. -/
def days (n : Int) : Int := n * microsecondsPerDay

/-- Keys are built as `"mls_live_" + str(uuid.uuid4()).replace("-", "")[:24]`
(lines 47, 105, 133); the random 24-character suffix is a parameter. -/
def makeKey (rand : String) : String := "mls_live_" ++ rand

/-- Line 200: average absolute combined jerk,
`sum(abs(t.jerkYaw) + abs(t.jerkPitch) for t in request.ticks) / len(request.ticks) if request.ticks else 0`. -/
def avg_jerk (ticks : List TickData) : ℚ :=
  if ticks.isEmpty then 0
  else (ticks.map (fun t => |t.jerkYaw| + |t.jerkPitch|)).sum / (ticks.length : ℚ)

/-- Lines 202-206: the probability; the low-signal draw
`random.uniform(0.0, 0.3)` is the parameter `r`. -/
def predictProbability (ticks : List TickData) (r : ℚ) : ℚ :=
  if avg_jerk ticks > 1/2 then min (99/100) (avg_jerk ticks / 2) else r

/-- Lines 208-212: verdict assignment from the final probability. -/
def verdictOf (p : ℚ) : String :=
  if p > 4/5 then "CHEAT" else if p > 1/2 then "SUSPICIOUS" else "LEGIT"

/-- The `/predict` endpoint (lines 197-224): score, append a check record,
return the probability. `now` is the server-assigned timestamp. -/
def predict (checks : List CheckRecord) (playerUuid : String)
    (ticks : List TickData) (r : ℚ) (now : Int) :
    List CheckRecord × ℚ :=
  let probability := predictProbability ticks r
  (checks ++ [{ player_uuid := playerUuid, timestamp := now,
                probability := probability, avg_jerk := avg_jerk ticks,
                verdict := verdictOf probability }],
   probability)

/-- Shape of one entry of `recent_checks` in `/api/stats` (line 241). -/
structure RecentEntry where
  player : String
  time : Int
  prob : ℚ
  verdict : String
deriving DecidableEq

/-- Projection of a check row to a `recent_checks` entry (line 241). -/
def recentEntryOf (c : CheckRecord) : RecentEntry :=
  { player := c.player_uuid, time := c.timestamp,
    prob := c.probability, verdict := c.verdict }

/-- Result of `/api/stats` (lines 245-249). -/
structure StatsResult where
  total_checks : Nat
  flagged_count : Nat
  recent_checks : List RecentEntry
deriving DecidableEq

/-- The `/api/stats` endpoint (lines 226-249): total row count, count with
`probability > 0.8`, and the query `ORDER BY id DESC LIMIT 50` (reverse
insertion order, first 50). -/
def get_stats (checks : List CheckRecord) : StatsResult :=
  { total_checks := checks.length,
    flagged_count := (checks.filter (fun c => c.probability > 4/5)).length,
    recent_checks := (checks.reverse.take 50).map recentEntryOf }

/-- The heartbeat endpoint (lines 77-87):
`UPDATE servers SET online_count = ? WHERE id = ?`, then 404 when
`rowcount == 0`. No range check is performed on `online_count`. -/
def heartbeat (db : List ServerRecord) (server_id : String) (online_count : Int) :
    Except HttpError (List ServerRecord) :=
  if db.any (fun s => s.id = server_id) then
    .ok (db.map (fun s =>
      if s.id = server_id then { s with online_count := online_count } else s))
  else
    .error .NotFound

/-- The list endpoint `GET /api/servers` (lines 89-97). -/
def get_servers (db : List ServerRecord) : List ServerRecord := db

/-- The create endpoint (lines 99-112): unconditionally inserts a fresh row;
`new_id` and `rand` stand for the two `uuid.uuid4()` draws. Returns the new
store and the new id. -/
def create_server (db : List ServerRecord) (name new_id rand : String)
    (now : Int) : List ServerRecord × String :=
  (db ++ [{ id := new_id, name := name, api_key := makeKey rand,
            license_type := "Standard License",
            expiration_date := now + days 30, status := "Active",
            online_count := 0, limit_count := 100,
            requests_today := 0, detections_total := 0 }],
   new_id)

/-- The get endpoint (lines 114-126). -/
def get_server (db : List ServerRecord) (server_id : String) :
    Except HttpError ServerRecord :=
  match db.find? (fun s => s.id = server_id) with
  | none => .error .NotFound
  | some s => .ok s

/-- The key-rotation endpoint (lines 128-142):
`UPDATE servers SET api_key = ? WHERE id = ?`, 404 when `rowcount == 0`;
no collision check against existing keys. Returns the new key and store. -/
def reset_key (db : List ServerRecord) (server_id rand : String) :
    Except HttpError (String × List ServerRecord) :=
  if db.any (fun s => s.id = server_id) then
    .ok (makeKey rand, db.map (fun s =>
      if s.id = server_id then { s with api_key := makeKey rand } else s))
  else
    .error .NotFound

/-- The verify endpoint (lines 144-156):
`SELECT * FROM servers WHERE api_key = ?`, 401 when no row matches. -/
def verify_server (db : List ServerRecord) (key : String) :
    Except HttpError ServerRecord :=
  match db.find? (fun s => s.api_key = key) with
  | none => .error .Unauthorized
  | some s => .ok s

/-- The renew endpoint (lines 158-180): looks up `expiration_date`;
if expired, new expiration is `now + 30 days`, else `old + 30 days`;
sets `status = Active` on the matched rows. -/
def renew_server (db : List ServerRecord) (server_id : String) (now : Int) :
    Except HttpError (Int × List ServerRecord) :=
  match db.find? (fun s => s.id = server_id) with
  | none => .error .NotFound
  | some s =>
    let new_expire :=
      if s.expiration_date < now then now + days 30
      else s.expiration_date + days 30
    .ok (new_expire, db.map (fun t =>
      if t.id = server_id then
        { t with expiration_date := new_expire, status := "Active" }
      else t))

/-- Database seeding (lines 43-52): when the `servers` table is empty,
insert the default Trial Server; `trial_id` and `trial_rand` stand for the
two `uuid.uuid4()` draws. -/
def init_db (db : List ServerRecord) (trial_id trial_rand : String)
    (now : Int) : List ServerRecord :=
  if db.isEmpty then
    db ++ [{ id := trial_id, name := "Trial Server",
             api_key := makeKey trial_rand, license_type := "Trial period",
             expiration_date := now + days 3, status := "Active",
             online_count := 0, limit_count := 50,
             requests_today := 0, detections_total := 0 }]
  else db

/-- Store reached after a fallible update: the new store on success, the
unchanged one when the handler raised before committing. -/
def storeAfter (r : Except HttpError (String × List ServerRecord))
    (db : List ServerRecord) : List ServerRecord :=
  match r with
  | .ok (_, db2) => db2
  | .error _ => db

/-- Uniqueness of `api_key` across the whole store (spec section 3
invariants). -/
def apiKeysNodup (db : List ServerRecord) : Prop :=
  (db.map (fun s => s.api_key)).Nodup

instance (db : List ServerRecord) : Decidable (apiKeysNodup db) := by
  unfold apiKeysNodup; infer_instance

/-- A concrete server row used in witnesses and counterexamples. -/
def srvA : ServerRecord :=
  { id := "s1", name := "Alpha",
    api_key := "mls_live_aaaaaaaaaaaaaaaaaaaaaaaa",
    license_type := "Standard License", expiration_date := days 30,
    status := "Active", online_count := 0, limit_count := 100,
    requests_today := 0, detections_total := 0 }

/-- A concrete tick with unit yaw jerk, from end-to-end scenario 2. -/
def tickJ : TickData :=
  { deltaYaw := 0, deltaPitch := 0, accelYaw := 0, accelPitch := 0,
    jerkYaw := 1, jerkPitch := 0, gcdErrorYaw := 0, gcdErrorPitch := 0 }

/-- A concrete high-probability check row for witnesses. -/
def chkA : CheckRecord :=
  { player_uuid := "alice", timestamp := 1, probability := 9/10,
    avg_jerk := 2, verdict := "CHEAT" }

/-- A concrete low-probability check row for witnesses. -/
def chkB : CheckRecord :=
  { player_uuid := "bob", timestamp := 2, probability := 1/10,
    avg_jerk := 0, verdict := "LEGIT" }

/-- C1 counterexample: the code performs no validation of `online_count`:
`Heartbeat("s1", -1)` succeeds (no InvalidInput) and overwrites the stored
`online_count` 0 with -1, refuting the claim at this input. -/
theorem C1_counterexample :
    heartbeat [srvA] "s1" (-1) = .ok [{ srvA with online_count := -1 }] ∧
    ({ srvA with online_count := -1 }).online_count = -1 ∧
    srvA.online_count = 0 :=
  ⟨rfl, rfl, rfl⟩

/-- C1 (amended): the heartbeat handler performs no range check: for every
integer `n`, negative included, when some record has the given id the
operation succeeds, overwriting `online_count` of the matching records with
`n` and leaving everything else unchanged; it fails (with NotFound, never
InvalidInput) only when no record has the id. -/
theorem C1_heartbeat_no_validation (db : List ServerRecord) (sid : String)
    (n : Int) (h : ∃ s ∈ db, s.id = sid) :
    heartbeat db sid n =
      .ok (db.map (fun s =>
        if s.id = sid then { s with online_count := n } else s)) := by
  unfold heartbeat
  rw [if_pos]
  simp only [List.any_eq_true, decide_eq_true_eq]
  exact h

/-- Witness for C1 (amended) at a concrete store and a negative count. -/
theorem C1_amended_witness :
    heartbeat [srvA] "s1" (-5) =
      .ok ([srvA].map (fun s =>
        if s.id = "s1" then { s with online_count := -5 } else s)) :=
  C1_heartbeat_no_validation [srvA] "s1" (-5) ⟨srvA, List.mem_singleton_self srvA, rfl⟩

/-- C2: every telemetry submission records exactly the verdict determined by
the final probability through the fixed thresholds: CHEAT iff p > 0.8,
SUSPICIOUS iff 0.5 < p ≤ 0.8, LEGIT iff p ≤ 0.5; in particular p = 0.5
gives LEGIT and p = 0.8 gives SUSPICIOUS. -/
theorem C2_verdict_consistent (checks : List CheckRecord) (player : String)
    (ticks : List TickData) (r : ℚ) (now : Int) :
    (predict checks player ticks r now).1 =
      checks ++ [{ player_uuid := player, timestamp := now,
                   probability := (predict checks player ticks r now).2,
                   avg_jerk := avg_jerk ticks,
                   verdict := verdictOf (predict checks player ticks r now).2 }] ∧
    (∀ p : ℚ, (verdictOf p = "CHEAT" ↔ 4/5 < p) ∧
              (verdictOf p = "SUSPICIOUS" ↔ 1/2 < p ∧ p ≤ 4/5) ∧
              (verdictOf p = "LEGIT" ↔ p ≤ 1/2)) ∧
    verdictOf (1/2) = "LEGIT" ∧ verdictOf (4/5) = "SUSPICIOUS" := by
  refine ⟨rfl, ?_, by norm_num [verdictOf], by norm_num [verdictOf]⟩
  intro p
  unfold verdictOf
  split_ifs with h1 h2 <;> refine ⟨?_, ?_, ?_⟩ <;> simp_all <;> linarith

/-- C7: scoring is total on the empty tick sequence: the guard makes
`avg_jerk` 0 without dividing, and the probability is the low-signal draw. -/
theorem C7_empty_ticks (checks : List CheckRecord) (player : String)
    (r : ℚ) (now : Int) :
    avg_jerk [] = 0 ∧ predictProbability [] r = r ∧
    (predict checks player [] r now).2 = r := by
  refine ⟨rfl, ?_, ?_⟩ <;> norm_num [predict, predictProbability, avg_jerk]

/-- C9: for every tick sequence and every low-signal draw in [0, 0.3], the
probability returned and stored with the check record lies in [0, 1]. -/
theorem C9_probability_range (checks : List CheckRecord) (player : String)
    (ticks : List TickData) (r : ℚ) (now : Int)
    (hr0 : 0 ≤ r) (hr1 : r ≤ 3/10) :
    (0 ≤ (predict checks player ticks r now).2 ∧
      (predict checks player ticks r now).2 ≤ 1) ∧
    ∃ rec, (predict checks player ticks r now).1 = checks ++ [rec] ∧
      rec.probability = (predict checks player ticks r now).2 := by
  refine ⟨?_, _, rfl, rfl⟩
  have he : (predict checks player ticks r now).2 = predictProbability ticks r := rfl
  rw [he]
  unfold predictProbability
  split_ifs with h
  · exact ⟨le_min (by norm_num) (by linarith), le_trans (min_le_left _ _) (by norm_num)⟩
  · exact ⟨hr0, by linarith⟩

/-- Witness for C9 at the empty tick sequence and draw 0.25. -/
theorem C9_witness :
    (0 ≤ (predict [] "p" [] (1/4) 0).2 ∧ (predict [] "p" [] (1/4) 0).2 ≤ 1) ∧
    ∃ rec, (predict [] "p" [] (1/4) 0).1 = [] ++ [rec] ∧
      rec.probability = (predict [] "p" [] (1/4) 0).2 :=
  C9_probability_range [] "p" [] (1/4) 0 (by norm_num) (by norm_num)

/-- C10: on an empty store, initialization seeds exactly one record, the
Trial Server with licence "Trial period", status Active, expiration now + 3
days, online count 0 and limit 50; listing the fresh store returns this one
record (not the empty sequence), and its limit 50 differs from the limit 100
that create_server assigns. -/
theorem C10_trial_seed (trial_id trial_rand : String) (now : Int)
    (db : List ServerRecord) (name new_id rand : String) (now2 : Int) :
    ∃ s, get_servers (init_db [] trial_id trial_rand now) = [s] ∧
      s.name = "Trial Server" ∧ s.license_type = "Trial period" ∧
      s.status = "Active" ∧ s.expiration_date = now + days 3 ∧
      s.online_count = 0 ∧ s.limit_count = 50 ∧
      get_servers (init_db [] trial_id trial_rand now) ≠ [] ∧
      ∃ t, (create_server db name new_id rand now2).1 = db ++ [t] ∧
        t.limit_count = 100 ∧ s.limit_count ≠ t.limit_count := by
  refine ⟨_, rfl, rfl, rfl, rfl, rfl, rfl, rfl, by simp [get_servers, init_db],
    _, rfl, rfl, ?_⟩
  norm_num

/-- C3: renewing an existing record yields expiration now + 30 days when the
prior expiration is strictly before now and prior + 30 days otherwise, which
equals max(now, prior) + 30 days, is never below the prior expiration, and
sets status Active on the renewed record; an unknown id fails with
NotFound. -/
theorem C3_renew_policy (db : List ServerRecord) (sid : String) (now : Int) :
    (db.find? (fun u => u.id = sid) = none →
      renew_server db sid now = .error .NotFound) ∧
    ∀ s, db.find? (fun u => u.id = sid) = some s →
      ∃ e db2, renew_server db sid now = .ok (e, db2) ∧
        e = (if s.expiration_date < now then now + days 30
             else s.expiration_date + days 30) ∧
        e = max now s.expiration_date + days 30 ∧
        s.expiration_date ≤ e ∧
        ∀ t ∈ db2, t.id = sid →
          t.status = "Active" ∧ t.expiration_date = e := by
  constructor
  · intro h
    unfold renew_server
    rw [h]
  · intro s hs
    unfold renew_server
    rw [hs]
    refine ⟨_, _, rfl, rfl, ?_, ?_, ?_⟩
    · rcases lt_or_le s.expiration_date now with h | h
      · rw [if_pos h, max_eq_left h.le]
      · rw [if_neg (not_lt.mpr h), max_eq_right h]
    · split_ifs with h
      · simp only [days, microsecondsPerDay]
        omega
      · simp only [days, microsecondsPerDay]
        omega
    · intro t ht htid
      rw [List.mem_map] at ht
      obtain ⟨u, hu, rfl⟩ := ht
      by_cases h : u.id = sid
      · rw [if_pos h]
        exact ⟨rfl, rfl⟩
      · rw [if_neg h] at htid ⊢
        exact absurd htid h

/-- Witness for C3 at a concrete store, both for the unknown-id branch and
for a record whose expiration lies ahead of now. -/
theorem C3_witness :
    renew_server [] "s1" 0 = .error .NotFound ∧
    ∃ e db2, renew_server [srvA] "s1" 0 = .ok (e, db2) ∧
      e = max 0 srvA.expiration_date + days 30 := by
  refine ⟨(C3_renew_policy [] "s1" 0).1 rfl, ?_⟩
  obtain ⟨e, db2, h1, -, h3, -, -⟩ :=
    (C3_renew_policy [srvA] "s1" 0).2 srvA rfl
  exact ⟨e, db2, h1, h3⟩

/-- C6: for every non-empty tick sequence the auxiliary feature is the mean
of the combined absolute jerks, and in the high-signal case the probability
is min(0.99, avg/2); ten ticks with unit yaw jerk give avg 1, probability
0.5, verdict LEGIT. -/
theorem C6_avg_jerk_mean (ticks : List TickData) (r : ℚ) (h : ticks ≠ []) :
    avg_jerk ticks =
      (ticks.map (fun t => |t.jerkYaw| + |t.jerkPitch|)).sum / (ticks.length : ℚ) ∧
    (avg_jerk ticks > 1/2 →
      predictProbability ticks r = min (99/100) (avg_jerk ticks / 2)) ∧
    avg_jerk (List.replicate 10 tickJ) = 1 ∧
    predictProbability (List.replicate 10 tickJ) r = 1/2 ∧
    verdictOf (predictProbability (List.replicate 10 tickJ) r) = "LEGIT" := by
  have havg : avg_jerk (List.replicate 10 tickJ) = 1 := by
    simp [avg_jerk, tickJ, List.map_replicate, List.sum_replicate]
    norm_num
  have hp : predictProbability (List.replicate 10 tickJ) r = 1/2 := by
    rw [predictProbability, havg]
    norm_num
  refine ⟨?_, ?_, havg, hp, ?_⟩
  · rw [avg_jerk, if_neg]
    simpa using h
  · intro hgt
    rw [predictProbability, if_pos hgt]
  · rw [hp]
    norm_num [verdictOf]

/-- Witness for C6 at a concrete non-empty tick list. -/
theorem C6_witness :
    avg_jerk (List.replicate 10 tickJ) = 1 ∧
    predictProbability (List.replicate 10 tickJ) 0 = 1/2 ∧
    verdictOf (predictProbability (List.replicate 10 tickJ) 0) = "LEGIT" := by
  obtain ⟨-, -, h3, h4, h5⟩ := C6_avg_jerk_mean [tickJ] 0 (by simp)
  exact ⟨h3, h4, h5⟩

/-- Replacing the key of the records matching `sid` keeps the stored keys
duplicate-free, provided ids are unique, keys were unique, and the new key
is not among the stored keys. -/
theorem nodup_keys_update (db : List ServerRecord) (sid k : String)
    (hid : (db.map (fun s => s.id)).Nodup)
    (hu : (db.map (fun s => s.api_key)).Nodup)
    (hk : k ∉ db.map (fun s => s.api_key)) :
    (db.map (fun s => if s.id = sid then k else s.api_key)).Nodup := by
  induction db with
  | nil => simp
  | cons a tl ih =>
    rw [List.map_cons, List.nodup_cons] at hid hu ⊢
    rw [List.map_cons, List.mem_cons] at hk
    push_neg at hk
    obtain ⟨hk1, hk2⟩ := hk
    refine ⟨?_, ih hid.2 hu.2 hk2⟩
    intro hmem
    rw [List.mem_map] at hmem
    obtain ⟨t, ht, heq⟩ := hmem
    by_cases ha : a.id = sid
    · rw [if_pos ha] at heq
      by_cases htid : t.id = sid
      · exact hid.1 (List.mem_map.mpr ⟨t, ht, htid.trans ha.symm⟩)
      · rw [if_neg htid] at heq
        exact hk2 (List.mem_map.mpr ⟨t, ht, heq⟩)
    · rw [if_neg ha] at heq
      by_cases htid : t.id = sid
      · rw [if_pos htid] at heq
        exact hk1 heq
      · rw [if_neg htid] at heq
        exact hu.1 (List.mem_map.mpr ⟨t, ht, heq⟩)

/-- C4 counterexample: starting from a store whose keys are unique,
create_server with a drawn key suffix equal to the stored key's suffix
commits a duplicate api_key; no collision re-check or retry exists in the
code, refuting the claimed enforcement mechanism. -/
theorem C4_counterexample :
    apiKeysNodup [srvA] ∧
    ¬ apiKeysNodup
      (create_server [srvA] "Beta" "s2" "aaaaaaaaaaaaaaaaaaaaaaaa" 0).1 :=
  ⟨by decide, by decide⟩

/-- C4 (amended): neither create_server nor reset_key checks the freshly
drawn key for collisions; key uniqueness is preserved only under the extra
assumption that the drawn key is absent from the store (with unique ids for
the rotation case). -/
theorem C4_no_collision_check (db : List ServerRecord)
    (name new_id rand sid : String) (now : Int)
    (hid : (db.map (fun s => s.id)).Nodup)
    (hu : apiKeysNodup db)
    (hk : makeKey rand ∉ db.map (fun s => s.api_key)) :
    apiKeysNodup (create_server db name new_id rand now).1 ∧
    apiKeysNodup (storeAfter (reset_key db sid rand) db) := by
  constructor
  · unfold apiKeysNodup create_server
    rw [List.map_append]
    refine List.Nodup.append hu (by simp) ?_
    intro x hx hx2
    rw [List.map_cons, List.map_nil, List.mem_singleton] at hx2
    have hx3 : x = makeKey rand := hx2
    exact hk (hx3 ▸ hx)
  · unfold reset_key
    by_cases hc : (db.any fun s => s.id = sid) = true
    · rw [if_pos hc]
      have hred : storeAfter (Except.ok (makeKey rand,
          db.map fun s =>
            if s.id = sid then { s with api_key := makeKey rand } else s)) db =
          db.map fun s =>
            if s.id = sid then { s with api_key := makeKey rand } else s := rfl
      rw [hred]
      unfold apiKeysNodup
      rw [List.map_map]
      have hfun : ((fun s : ServerRecord => s.api_key) ∘
          fun s => if s.id = sid then { s with api_key := makeKey rand } else s) =
          fun s => if s.id = sid then makeKey rand else s.api_key := by
        funext s
        by_cases h : s.id = sid
        · rw [Function.comp_apply, if_pos h, if_pos h]
        · rw [Function.comp_apply, if_neg h, if_neg h]
      rw [hfun]
      exact nodup_keys_update db sid (makeKey rand) hid hu hk
    · rw [if_neg hc]
      exact hu

/-- Witness for C4 (amended) at a concrete store and a fresh suffix. -/
theorem C4_amended_witness :
    apiKeysNodup (create_server [srvA] "Beta" "s2" "bbbbbbbbbbbbbbbbbbbbbbbb" 0).1 ∧
    apiKeysNodup (storeAfter (reset_key [srvA] "s1" "bbbbbbbbbbbbbbbbbbbbbbbb") [srvA]) :=
  C4_no_collision_check [srvA] "Beta" "s2" "bbbbbbbbbbbbbbbbbbbbbbbb" "s1" 0
    (by decide) (by decide) (by decide)

/-- C5 counterexample: rotating with a drawn key equal to the current key
commits successfully, yet verifying with the pre-rotation key still succeeds
on the post-rotation store, refuting the claim that the previous key never
authenticates after rotation. -/
theorem C5_counterexample :
    reset_key [srvA] "s1" "aaaaaaaaaaaaaaaaaaaaaaaa" =
      .ok ("mls_live_aaaaaaaaaaaaaaaaaaaaaaaa", [srvA]) ∧
    verify_server [srvA] srvA.api_key = .ok srvA :=
  ⟨rfl, rfl⟩

/-- C5 (amended): when a rotation commits a drawn key different from the
previous key and no other record holds the previous key, verifying with the
previous key on the post-rotation store fails with Unauthorized. -/
theorem C5_old_key_rejected (db : List ServerRecord)
    (sid rand oldKey nk : String) (db2 : List ServerRecord)
    (hrot : reset_key db sid rand = .ok (nk, db2))
    (hne : makeKey rand ≠ oldKey)
    (hold : ∀ s ∈ db, s.api_key = oldKey → s.id = sid) :
    verify_server db2 oldKey = .error .Unauthorized := by
  unfold reset_key at hrot
  by_cases hc : (db.any fun s => s.id = sid) = true
  · rw [if_pos hc] at hrot
    rw [Except.ok.injEq, Prod.mk.injEq] at hrot
    obtain ⟨-, hdb⟩ := hrot
    subst hdb
    have hnone : ((db.map fun s =>
        if s.id = sid then { s with api_key := makeKey rand } else s).find?
          (fun s => s.api_key = oldKey)) = none := by
      rw [List.find?_eq_none]
      intro t ht
      rw [List.mem_map] at ht
      obtain ⟨u, hu, rfl⟩ := ht
      by_cases h : u.id = sid
      · rw [if_pos h]
        simpa using hne
      · rw [if_neg h]
        simp only [decide_eq_true_eq]
        intro he
        exact h (hold u hu he)
    unfold verify_server
    rw [hnone]
  · rw [if_neg hc] at hrot
    exact absurd hrot (by simp)

/-- Witness for C5 (amended): a concrete rotation with a distinct fresh key,
after which the old key is rejected. -/
theorem C5_amended_witness :
    verify_server [{ srvA with api_key := "mls_live_bbbbbbbbbbbbbbbbbbbbbbbb" }]
      "mls_live_aaaaaaaaaaaaaaaaaaaaaaaa" = .error .Unauthorized :=
  C5_old_key_rejected [srvA] "s1" "bbbbbbbbbbbbbbbbbbbbbbbb"
    "mls_live_aaaaaaaaaaaaaaaaaaaaaaaa" "mls_live_bbbbbbbbbbbbbbbbbbbbbbbb"
    [{ srvA with api_key := "mls_live_bbbbbbbbbbbbbbbbbbbbbbbb" }]
    (by rfl) (by decide) (by decide)

/-- C8: the stats query returns the number of appended records, the number
with probability above 0.8, and at most 50 recent entries in most-recent
first order (exactly min 50 n entries, the i-th being the i-th most recently
appended record). -/
theorem C8_stats_shape (checks : List CheckRecord) :
    (get_stats checks).total_checks = checks.length ∧
    (get_stats checks).flagged_count =
      (checks.filter (fun c => c.probability > 4/5)).length ∧
    (get_stats checks).recent_checks.length = min 50 checks.length ∧
    (get_stats checks).recent_checks.length ≤ 50 ∧
    ∀ i (hi : i < (get_stats checks).recent_checks.length)
      (hj : checks.length - 1 - i < checks.length),
      (get_stats checks).recent_checks.get ⟨i, hi⟩ =
        recentEntryOf (checks.get ⟨checks.length - 1 - i, hj⟩) := by
  refine ⟨rfl, rfl, ?_, ?_, ?_⟩
  · simp [get_stats]
  · simp [get_stats]
  · intro i hi hj
    simp only [get_stats, List.get_eq_getElem, List.getElem_map,
      List.getElem_take, List.getElem_reverse]

/-- Witness for C8 at a two-entry log: the first recent entry is the most
recently appended record. -/
theorem C8_witness :
    ∃ (hi : 0 < (get_stats [chkA, chkB]).recent_checks.length)
      (hj : [chkA, chkB].length - 1 - 0 < [chkA, chkB].length),
      (get_stats [chkA, chkB]).recent_checks.get ⟨0, hi⟩ =
        recentEntryOf (([chkA, chkB] : List CheckRecord).get
          ⟨[chkA, chkB].length - 1 - 0, hj⟩) := by
  refine ⟨by simp [get_stats], by simp, ?_⟩
  exact (C8_stats_shape [chkA, chkB]).2.2.2.2 0 (by simp [get_stats]) (by simp)

end Mlsac
